import Mathlib

/-!
Shallow embedding of the CISHub task-queue orchestration service
(`src/cishub`), covering the task lifecycle model (`core/models.py`),
the queue manager submission and cancellation paths
(`core/queue_manager.py`), the worker-side status update wrapper
(`core/worker.py`), the API cancellation route (`api/routes.py`), the
alarm engine and shutdown handler (`monitoring/alarm_system.py`), and
the health evaluator (`monitoring/health_checker.py`).

Machine integers are modelled as `Int`/`Nat`; Python floats that only
ever participate in comparisons and arithmetic are modelled as `ℚ`;
wall-clock instants are `Int` seconds.  Database tables are lists of
rows; a session that rolls back leaves the list unchanged.  External
effects (broker RPCs, notifications) are modelled as oracle
parameters and observation traces.
-/

namespace CISHub

/-- `TaskStatus` enumeration from `core/models.py`. -/
inductive TaskStatus where
  | pending
  | processing
  | completed
  | failed
  | retrying
  | cancelled
deriving DecidableEq, Repr

/-- `QueuePriority` enumeration from `core/models.py`. -/
inductive QueuePriority where
  | low
  | normal
  | high
  | critical
deriving DecidableEq, Repr

/-- `AlarmSeverity` enumeration from `core/models.py`. -/
inductive AlarmSeverity where
  | info
  | warning
  | error
  | critical
deriving DecidableEq, Repr

/-- `HealthStatus` enumeration from `monitoring/health_checker.py`. -/
inductive HealthStatus where
  | healthy
  | degraded
  | critical
  | unknown
deriving DecidableEq, Repr

/-- `AlarmType` enumeration from `monitoring/alarm_system.py`. -/
inductive AlarmType where
  | queue_backup
  | high_error_rate
  | processing_timeout
  | overdue_tasks
  | system_error
  | database_error
  | redis_error
  | http_error
  | resource_exhaustion
  | system_shutdown
deriving DecidableEq, Repr

/-- The `.value` string of each `AlarmType` member. -/
def AlarmType.value : AlarmType → String
  | .queue_backup => "queue_backup"
  | .high_error_rate => "high_error_rate"
  | .processing_timeout => "processing_timeout"
  | .overdue_tasks => "overdue_tasks"
  | .system_error => "system_error"
  | .database_error => "database_error"
  | .redis_error => "redis_error"
  | .http_error => "http_error"
  | .resource_exhaustion => "resource_exhaustion"
  | .system_shutdown => "system_shutdown"

/-- Boolean test that the character list `p` is an initial segment of `s`
(used to model Python substring containment and title prefixes). -/
def charsStarts : List Char → List Char → Bool
  | [], _ => true
  | _ :: _, [] => false
  | p :: ps, c :: cs => p = c && charsStarts ps cs

/-- Boolean test that `needle` occurs contiguously inside the character
list (Python `needle in hay`). -/
def charsHasSub (needle : List Char) : List Char → Bool
  | [] => needle.isEmpty
  | c :: cs => charsStarts needle (c :: cs) || charsHasSub needle cs

/-- Python `needle in hay.lower()` for an already-lowercase needle:
the haystack is lowercased character-wise first. -/
def strHasSubLower (hay needle : String) : Bool :=
  charsHasSub needle.data (hay.data.map Char.toLower)

/-- Python `s.startswith(p)` used to observe `CRITICAL:` title prefixes. -/
def strStarts (s p : String) : Bool :=
  charsStarts p.data s.data

/-- Pointwise update of a string-keyed map (models Python `d[k] = v`;
dicts are modelled as total functions carrying their read default). -/
def updateFn {α : Type} (f : String → α) (k : String) (v : α) : String → α :=
  fun x => if x = k then v else f x

/-- Opaque JSON-ish values carried in task payloads and results
(dictionary values are flattened to strings; the claims never inspect
payload contents). -/
inductive PyVal where
  | dict (fields : List (String × String))
  | str (s : String)
  | num (n : Int)
  | boolean (b : Bool)
  | null
deriving DecidableEq, Repr

/-- String rendering of a scalar `PyVal`, used when the worker wraps a
non-dict handler result as `{value: x}`. -/
def PyVal.renderScalar : PyVal → String
  | PyVal.dict _ => "<dict>"
  | PyVal.str s => s
  | PyVal.num n => toString n
  | PyVal.boolean b => if b then "True" else "False"
  | PyVal.null => "None"

/-- Heterogeneous context-data values attached to alarm events
(`context_data` entries in `monitoring/alarm_system.py`). -/
inductive CtxVal where
  | int (n : Int)
  | rat (q : ℚ)
  | str (s : String)
  | optStr (s : Option String)
  | optInt (n : Option Int)
deriving DecidableEq, Repr

/-- A row of the `tasks` table (`Task` in `core/models.py`); timestamps
are `Option Int` seconds, `none` meaning SQL NULL. -/
structure TaskRow where
  id : String
  queue_id : Nat
  task_type : String
  task_name : String
  payload : PyVal
  result : Option PyVal
  status : TaskStatus
  priority : QueuePriority
  retry_count : Nat
  max_retries : Nat
  error_message : Option String
  error_traceback : Option String
  last_error_at : Option Int
  created_at : Int
  started_at : Option Int
  completed_at : Option Int
  scheduled_at : Int
  timeout_at : Option Int
  correlation_id : Option String
  worker_id : Option String
deriving DecidableEq, Repr

/-- `Task.is_overdue` from `core/models.py`: true when `timeout_at` is
set and strictly in the past; the task's status is never consulted. -/
def TaskRow.is_overdue (t : TaskRow) (now : Int) : Bool :=
  match t.timeout_at with
  | some ta => now > ta
  | none => false

/-- A row of the `queues` table (`Queue` in `core/models.py`). -/
structure QueueRow where
  id : Nat
  name : String
  priority : QueuePriority
  is_active : Bool
  max_workers : Nat
  retry_limit : Nat
  timeout_seconds : Int
deriving DecidableEq, Repr

/-- `ComponentHealth` from `monitoring/health_checker.py` (the fields
`_calculate_overall_status` and the alert pass read). -/
structure ComponentHealth where
  name : String
  status : HealthStatus
  error_message : Option String
deriving DecidableEq, Repr

/-- `HealthMonitor._calculate_overall_status`: critical dominates, then
degraded, then all-healthy, otherwise unknown. -/
def calculate_overall_status (components : List ComponentHealth) : HealthStatus :=
  if components.any (fun c => c.status = HealthStatus.critical) then
    HealthStatus.critical
  else if components.any (fun c => c.status = HealthStatus.degraded) then
    HealthStatus.degraded
  else if components.all (fun c => c.status = HealthStatus.healthy) then
    HealthStatus.healthy
  else
    HealthStatus.unknown

/-- The resource threshold block of `MonitoringSettings` in
`config/settings.py`. -/
structure MonitoringThresholds where
  cpu_threshold : ℚ
  memory_threshold : ℚ
  disk_threshold : ℚ
deriving DecidableEq, Repr

/-- Defaults from `config/settings.py` (`cpu 80.0`, `memory 85.0`,
`disk 90.0`). -/
def monitoringDefaults : MonitoringThresholds :=
  { cpu_threshold := 80, memory_threshold := 85, disk_threshold := 90 }

/-- One accumulated issue of `SystemResourceChecker.check_health`,
tagged with the measured percentage (the Python code renders these as
formatted strings; only which issues fire and with what value is
modelled). -/
inductive ResourceIssue where
  | cpu (v : ℚ)
  | mem (v : ℚ)
  | disk (v : ℚ)
deriving DecidableEq, Repr

/-- The threshold cascade of `SystemResourceChecker.check_health`
(`monitoring/health_checker.py` lines 266-279): `status` starts
healthy and each exceeded check OVERWRITES it, CPU first, then
memory, then disk; issues are appended in the same order. -/
def check_system_resources (th : MonitoringThresholds) (cpu mem disk : ℚ) :
    HealthStatus × List ResourceIssue :=
  let status0 := HealthStatus.healthy
  let issues0 : List ResourceIssue := []
  let status1 :=
    if cpu > th.cpu_threshold then
      (if cpu < 95 then HealthStatus.degraded else HealthStatus.critical)
    else status0
  let issues1 := if cpu > th.cpu_threshold then issues0 ++ [ResourceIssue.cpu cpu] else issues0
  let status2 :=
    if mem > th.memory_threshold then
      (if mem < 95 then HealthStatus.degraded else HealthStatus.critical)
    else status1
  let issues2 := if mem > th.memory_threshold then issues1 ++ [ResourceIssue.mem mem] else issues1
  let status3 :=
    if disk > th.disk_threshold then
      (if disk < 98 then HealthStatus.degraded else HealthStatus.critical)
    else status2
  let issues3 := if disk > th.disk_threshold then issues2 ++ [ResourceIssue.disk disk] else issues2
  (status3, issues3)

/-- `TaskSubmission` dataclass from `core/queue_manager.py`; optional
fields are `Option`, with the same defaults as the dataclass. -/
structure TaskSubmission where
  task_type : String
  task_name : String
  payload : PyVal
  priority : QueuePriority := QueuePriority.normal
  queue_name : String := "default"
  correlation_id : Option String := none
  scheduled_at : Option Int := none
  timeout_seconds : Option Int := none
  retry_limit : Option Nat := none
deriving DecidableEq, Repr

/-- Error outcomes of queue-manager operations
(`QueueNotFoundError`, `QueueManagerError` for an inactive queue,
`TaskNotFoundError`, a broker submission failure propagated from
`CeleryManager.submit_task`, and a store failure inside the session). -/
inductive QMError where
  | queueNotFound
  | queueInactive
  | taskNotFound
  | brokerError
  | storeError
deriving DecidableEq, Repr

/-- `queues.by_name`: the first row whose unique `name` matches. -/
def findQueueByName (queues : List QueueRow) (name : String) : Option QueueRow :=
  queues.find? (fun q => q.name = name)

/-- `tasks` lookup by primary key. -/
def findTaskById (tasks : List TaskRow) (tid : String) : Option TaskRow :=
  tasks.find? (fun t => t.id = tid)

/-- Result of one `QueueManager.submit_task` call: the exception or the
returned task id, the `tasks` table as visible after the session
commits or rolls back, and whether the broker (Celery) was invoked. -/
structure SubmitResult where
  outcome : Except QMError String
  tasks : List TaskRow
  brokerCalled : Bool
deriving Repr

/-- `QueueManager.submit_task` (`core/queue_manager.py` lines 302-361).
External inputs are explicit: `broker` is the broker's response
(`some celeryId` on success, `none` when `send_task` raises), `dbOk`
is whether the subsequent `tasks` insert succeeds, `freshId` is the
UUID minted for the row, `now` the wall clock.  The session commits
only on normal exit; any raise rolls the insert back. -/
def submit_task (tasks : List TaskRow) (queues : List QueueRow)
    (sub : TaskSubmission) (broker : Option String) (dbOk : Bool)
    (freshId : String) (now : Int) : SubmitResult :=
  match findQueueByName queues sub.queue_name with
  | none => { outcome := Except.error QMError.queueNotFound, tasks := tasks, brokerCalled := false }
  | some q =>
    if q.is_active = false then
      { outcome := Except.error QMError.queueInactive, tasks := tasks, brokerCalled := false }
    else
      -- defaults from the queue row when the submission leaves them unset
      let timeout_seconds := sub.timeout_seconds.getD q.timeout_seconds
      let retry_limit := sub.retry_limit.getD q.retry_limit
      match broker with
      | none =>
        -- broker raised: the exception propagates, session rolls back
        { outcome := Except.error QMError.brokerError, tasks := tasks, brokerCalled := true }
      | some celeryId =>
        if dbOk = false then
          -- insert/flush raised after broker success: rollback, no row
          { outcome := Except.error QMError.storeError, tasks := tasks, brokerCalled := true }
        else
          -- Python truthiness: a 0 timeout yields no timeout_at
          let timeout_at : Option Int :=
            if timeout_seconds = 0 then none
            else some ((sub.scheduled_at.getD now) + timeout_seconds)
          let row : TaskRow :=
            { id := freshId
              queue_id := q.id
              task_type := sub.task_type
              task_name := sub.task_name
              payload := sub.payload
              result := none
              status := TaskStatus.pending
              priority := sub.priority
              retry_count := 0
              max_retries := retry_limit
              error_message := none
              error_traceback := none
              last_error_at := none
              created_at := now
              started_at := none
              completed_at := none
              scheduled_at := sub.scheduled_at.getD now
              timeout_at := timeout_at
              correlation_id := sub.correlation_id
              worker_id := some celeryId }
          { outcome := Except.ok freshId, tasks := tasks ++ [row], brokerCalled := true }

/-- `QueueManager.cancel_task` (`core/queue_manager.py` lines 397-417).
On success returns the updated table, whether `revoke` was invoked,
and the Python return value (`True`).  The status/`completed_at`
overwrite is unconditional: terminal tasks are NOT exempted. -/
def cancel_task (tasks : List TaskRow) (tid : String) (now : Int) :
    Except QMError (List TaskRow × Bool × Bool) :=
  match findTaskById tasks tid with
  | none => Except.error QMError.taskNotFound
  | some t =>
    let revoked := t.worker_id.isSome
    let tasks' := tasks.map (fun u =>
      if u.id = tid then
        { u with status := TaskStatus.cancelled, completed_at := some now }
      else u)
    Except.ok (tasks', revoked, true)

/-- A minimal HTTP response: status code and key/value JSON body. -/
structure HttpResponse where
  statusCode : Nat
  body : List (String × String)
deriving DecidableEq, Repr

/-- The `DELETE /tasks/{task_id}` route (`api/routes.py` lines 261-282).
`TaskNotFoundError` is not an `HTTPException`, so it is caught by the
generic `except Exception` arm and produces a 500; the route's own
404 branch fires only when `cancel_task` returns a falsy value,
which it never does. -/
def cancel_task_route (tasks : List TaskRow) (tid : String) (now : Int) :
    HttpResponse :=
  match cancel_task tasks tid now with
  | Except.error _ =>
      { statusCode := 500, body := [("detail", "Failed to cancel task")] }
  | Except.ok (_, _, success) =>
      if success = false then
        { statusCode := 404, body := [("detail", "Task not found")] }
      else
        { statusCode := 200, body := [("task_id", tid), ("status", "cancelled")] }

/-- Values carried in the worker's `update_fields` dict
(`core/worker.py` lines 113-132). -/
inductive FieldVal where
  | status (s : TaskStatus)
  | time (n : Int)
  | count (n : Nat)
  | text (s : String)
  | json (v : PyVal)
deriving DecidableEq, Repr

/-- The columns declared on the `Task` model (`core/models.py` lines
70-115).  There is no `updated_at` column — only `Queue` declares
one. -/
def taskColumns : List String :=
  ["id", "queue_id", "task_type", "task_name", "payload", "result",
   "status", "priority", "retry_count", "max_retries", "error_message",
   "error_traceback", "last_error_at", "created_at", "started_at",
   "completed_at", "scheduled_at", "timeout_at", "correlation_id",
   "worker_id"]

/-- The `update_fields` dict built by `CISHubTask._update_task_status`
(`core/worker.py` lines 113-132): always `status` and `updated_at`;
`started_at` whenever the new status is `processing` (no write-once
guard); `completed_at` on terminal statuses; `retry_count` + 1 and
`last_error_at` on retrying; error fields when a non-empty message
is passed (Python truthiness); a non-dict result wrapped as
`{value: x}`. -/
def update_fields (t : TaskRow) (status : TaskStatus)
    (error_message : Option String) (result : Option PyVal) (now : Int) :
    List (String × FieldVal) :=
  let f0 := [("status", FieldVal.status status), ("updated_at", FieldVal.time now)]
  let f1 := if status = TaskStatus.processing then
      f0 ++ [("started_at", FieldVal.time now)]
    else f0
  let f2 := if status = TaskStatus.completed ∨ status = TaskStatus.failed ∨
      status = TaskStatus.cancelled then
      f1 ++ [("completed_at", FieldVal.time now)]
    else f1
  let f3 := if status = TaskStatus.retrying then
      f2 ++ [("retry_count", FieldVal.count (t.retry_count + 1)),
             ("last_error_at", FieldVal.time now)]
    else f2
  let f4 := match error_message with
    | some msg =>
        if msg = "" then f3
        else f3 ++ [("error_message", FieldVal.text msg),
                    ("error_traceback", FieldVal.text "<traceback>")]
    | none => f3
  match result with
  | some r => f4 ++ [("result", FieldVal.json (match r with
      | PyVal.dict fs => PyVal.dict fs
      | other => PyVal.dict [("value", other.renderScalar)]))]
  | none => f4

/-- One named-column assignment of the would-be UPDATE statement. -/
def applyField (t : TaskRow) (kv : String × FieldVal) : TaskRow :=
  match kv with
  | ("status", FieldVal.status s) => { t with status := s }
  | ("started_at", FieldVal.time n) => { t with started_at := some n }
  | ("completed_at", FieldVal.time n) => { t with completed_at := some n }
  | ("retry_count", FieldVal.count n) => { t with retry_count := n }
  | ("last_error_at", FieldVal.time n) => { t with last_error_at := some n }
  | ("error_message", FieldVal.text m) => { t with error_message := some m }
  | ("error_traceback", FieldVal.text m) => { t with error_traceback := some m }
  | ("result", FieldVal.json v) => { t with result := some v }
  | _ => t

/-- `update(TaskModel).values(**update_fields)` executed on the
session: SQLAlchemy refuses a `values` key that is not a column of
the model (CompileError, "Unconsumed column names") before anything
is written; otherwise every assignment is applied. -/
def execute_update (t : TaskRow) (fields : List (String × FieldVal)) :
    Except String TaskRow :=
  if fields.all (fun kv => taskColumns.contains kv.1) then
    Except.ok (fields.foldl applyField t)
  else
    Except.error "Unconsumed column names"

/-- `CISHubTask._update_task_status` (`core/worker.py` lines 95-140)
acting on the row located by `worker_id`: it builds `update_fields`,
executes the UPDATE, and catches any exception at the end
(`except Exception`, lines 139-140), which only logs — so a failing
execute leaves the row untouched. -/
def update_task_status (t : TaskRow) (status : TaskStatus)
    (error_message : Option String) (result : Option PyVal) (now : Int) :
    TaskRow :=
  match execute_update t (update_fields t status error_message result now) with
  | Except.ok res => res
  | Except.error _ => t

/-- Observable steps of `SystemShutdownHandler.trigger_emergency_shutdown`
(`monitoring/alarm_system.py` lines 280-311), one per statement with
an external effect: the SystemStatus update, each shutdown callback
in registration order, any alarm emission, and the final completion
log.  The source function contains no alarm emission. -/
inductive ShutdownStep where
  | updateSystemStatus (reason : String)
  | runCallback (idx : Nat)
  | emitAlarm (ty : AlarmType) (sev : AlarmSeverity)
  | logCompleted
deriving DecidableEq, Repr

/-- Whether a shutdown step emits an alarm. -/
def ShutdownStep.isEmitAlarm : ShutdownStep → Bool
  | .emitAlarm _ _ => true
  | _ => false

/-- `SystemShutdownHandler.trigger_emergency_shutdown`: returns the
ordered effect trace and the new `shutdown_in_progress` flag.  A
re-entrant call only logs and returns. -/
def trigger_emergency_shutdown (inProgress : Bool) (nCallbacks : Nat)
    (reason : String) : List ShutdownStep × Bool :=
  if inProgress then ([], true)
  else
    (ShutdownStep.updateSystemStatus reason ::
      ((List.range nCallbacks).map ShutdownStep.runCallback ++
        [ShutdownStep.logCompleted]),
     true)

/-- `AlarmConfig` dataclass from `monitoring/alarm_system.py`, with its
declared defaults. -/
structure AlarmConfig where
  queue_backup_threshold : Int := 100
  error_rate_threshold : ℚ := 10
  processing_timeout_threshold : Int := 300
  consecutive_failures_threshold : Nat := 5
  alarm_cooldown_seconds : Int := 300
  critical_alarm_shutdown : Bool := true
deriving DecidableEq, Repr

/-- `QueueHealth` dataclass from `core/queue_manager.py` as consumed by
the alarm engine. -/
structure QueueHealthData where
  queue_name : String
  is_healthy : Bool
  pending_count : Int
  processing_count : Int
  failed_count : Int
  error_rate : ℚ
  avg_processing_time : ℚ
  last_processed_at : Option Int
  issues : List String
deriving DecidableEq, Repr

/-- `AlarmEvent` dataclass from `monitoring/alarm_system.py`. -/
structure AlarmEvent where
  alarm_type : AlarmType
  severity : AlarmSeverity
  title : String
  description : String
  queue_name : Option String := none
  task_id : Option String := none
  component : Option String := none
  context_data : List (String × CtxVal) := []
deriving DecidableEq, Repr

/-- A row of the `system_alarms` table (`SystemAlarm` in
`core/models.py`), restricted to the columns the alarm engine reads
or writes. -/
structure AlarmRow where
  id : Nat
  alarm_type : AlarmType
  severity : AlarmSeverity
  title : String
  description : String
  component : Option String
  is_active : Bool
  acknowledged : Bool
  triggered_at : Int
  last_occurrence : Int
  occurrence_count : Nat
  context_data : List (String × CtxVal)
deriving DecidableEq, Repr

/-- In-memory and persistent state of `AlarmSystem`
(`monitoring/alarm_system.py`): the two dedup dicts (modelled as
total functions with the dict's read default — `consecutive_failures`
is read with `.get(name, 0)`, so an absent key and a zero entry are
observationally identical), the `system_alarms` table with its id
sequence, plus two observation traces — every event passed to
`trigger_alarm`, and every reason passed to the shutdown handler
(with its re-entry flag). -/
structure AlarmSystemState where
  config : AlarmConfig
  consecutive_failures : String → Nat
  last_alarm_times : String → Option Int
  alarms : List AlarmRow
  nextAlarmId : Nat
  triggered : List AlarmEvent
  shutdownInProgress : Bool
  shutdownReasons : List String

/-- A fresh alarm system over the given configuration. -/
def AlarmSystemState.init (cfg : AlarmConfig) : AlarmSystemState :=
  { config := cfg
    consecutive_failures := fun _ => 0
    last_alarm_times := fun _ => none
    alarms := []
    nextAlarmId := 1
    triggered := []
    shutdownInProgress := false
    shutdownReasons := [] }

/-- `AlarmSystem._create_alarm_event`: classify a `QueueHealth` issue
string by lowercase substring match, in source order (`backup`,
`error rate`, `processing`+`timeout`, `overdue`); anything else is
dropped. -/
def create_alarm_event (cfg : AlarmConfig) (qh : QueueHealthData)
    (issue : String) : Option AlarmEvent :=
  if strHasSubLower issue "backup" then
    some { alarm_type := AlarmType.queue_backup
           severity := AlarmSeverity.warning
           title := "Queue Backup Detected: " ++ qh.queue_name
           description := "Queue '" ++ qh.queue_name ++
             "' has excessive pending tasks. " ++ issue
           queue_name := some qh.queue_name
           context_data := [("pending_count", CtxVal.int qh.pending_count),
             ("processing_count", CtxVal.int qh.processing_count),
             ("threshold", CtxVal.int cfg.queue_backup_threshold)] }
  else if strHasSubLower issue "error rate" then
    some { alarm_type := AlarmType.high_error_rate
           severity := AlarmSeverity.error
           title := "High Error Rate: " ++ qh.queue_name
           description := "Queue '" ++ qh.queue_name ++
             "' has high error rate. " ++ issue
           queue_name := some qh.queue_name
           context_data := [("error_rate", CtxVal.rat qh.error_rate),
             ("failed_count", CtxVal.int qh.failed_count),
             ("threshold", CtxVal.rat cfg.error_rate_threshold)] }
  else if strHasSubLower issue "processing" && strHasSubLower issue "timeout" then
    some { alarm_type := AlarmType.processing_timeout
           severity := AlarmSeverity.error
           title := "Processing Timeout: " ++ qh.queue_name
           description := "Queue '" ++ qh.queue_name ++
             "' has processing timeout. " ++ issue
           queue_name := some qh.queue_name
           context_data := [("last_processed_at", CtxVal.optInt qh.last_processed_at),
             ("timeout_threshold", CtxVal.int cfg.processing_timeout_threshold)] }
  else if strHasSubLower issue "overdue" then
    some { alarm_type := AlarmType.overdue_tasks
           severity := AlarmSeverity.warning
           title := "Overdue Tasks: " ++ qh.queue_name
           description := "Queue '" ++ qh.queue_name ++
             "' has overdue tasks. " ++ issue
           queue_name := some qh.queue_name
           context_data := [("avg_processing_time", CtxVal.rat qh.avg_processing_time)] }
  else
    none

/-- The dedup key `"{type}:{queue or system}"`. -/
def alarmKey (e : AlarmEvent) : String :=
  e.alarm_type.value ++ ":" ++ (e.queue_name.getD "system")

/-- `AlarmSystem._should_trigger_alarm`: suppressed when the last alarm
for the same key is younger than the cooldown; otherwise the
last-alarm time is refreshed and the alarm proceeds. -/
def should_trigger_alarm (s : AlarmSystemState) (e : AlarmEvent) (now : Int) :
    Bool × AlarmSystemState :=
  let key := alarmKey e
  match s.last_alarm_times key with
  | some t =>
      if now - t < s.config.alarm_cooldown_seconds then (false, s)
      else (true, { s with last_alarm_times := updateFn s.last_alarm_times key (some now) })
  | none => (true, { s with last_alarm_times := updateFn s.last_alarm_times key (some now) })

/-- `AlarmRepository.get_recent_alarm`: among rows of the same type with
`triggered_at` inside the trailing window (10 minutes = 600 s for
`_store_alarm`), the one with the greatest `triggered_at`. -/
def get_recent_alarm (alarms : List AlarmRow) (ty : AlarmType)
    (windowSeconds : Int) (now : Int) : Option AlarmRow :=
  let cutoff := now - windowSeconds
  (alarms.filter (fun a => a.alarm_type = ty ∧ a.triggered_at > cutoff)).foldl
    (fun acc a =>
      match acc with
      | none => some a
      | some b => if a.triggered_at > b.triggered_at then some a else some b)
    none

/-- `AlarmSystem._store_alarm`: an active same-type alarm triggered in
the last 10 minutes is updated in place (occurrence count +1,
`last_occurrence`, `description` and `context_data` overwritten — its
severity and title stay); otherwise a fresh active row is inserted
with the column defaults of `SystemAlarm`. -/
def store_alarm (s : AlarmSystemState) (e : AlarmEvent) (now : Int) :
    Nat × AlarmSystemState :=
  match get_recent_alarm s.alarms e.alarm_type 600 now with
  | some ra =>
    if ra.is_active then
      (ra.id,
       { s with alarms := s.alarms.map (fun a =>
           if a.id = ra.id then
             { a with occurrence_count := a.occurrence_count + 1
                      last_occurrence := now
                      description := e.description
                      context_data := e.context_data }
           else a) })
    else
      (s.nextAlarmId,
       { s with alarms := s.alarms ++ [newAlarmRow s e now]
                nextAlarmId := s.nextAlarmId + 1 })
  | none =>
      (s.nextAlarmId,
       { s with alarms := s.alarms ++ [newAlarmRow s e now]
                nextAlarmId := s.nextAlarmId + 1 })
where
  /-- A freshly inserted `system_alarms` row. -/
  newAlarmRow (s : AlarmSystemState) (e : AlarmEvent) (now : Int) : AlarmRow :=
    { id := s.nextAlarmId
      alarm_type := e.alarm_type
      severity := e.severity
      title := e.title
      description := e.description
      component := e.component
      is_active := true
      acknowledged := false
      triggered_at := now
      last_occurrence := now
      occurrence_count := 1
      context_data := e.context_data }

/-- The fixed shutdown set of `AlarmSystem._handle_critical_alarm`. -/
def shutdownAlarmTypes : List AlarmType :=
  [AlarmType.high_error_rate, AlarmType.processing_timeout,
   AlarmType.system_error, AlarmType.database_error,
   AlarmType.resource_exhaustion]

/-- `AlarmSystem._handle_critical_alarm` combined with
`SystemShutdownHandler.trigger_emergency_shutdown`'s re-entry guard:
for a shutdown-set alarm type, record the shutdown reason once. -/
def handle_critical_alarm (s : AlarmSystemState) (e : AlarmEvent) :
    AlarmSystemState :=
  if shutdownAlarmTypes.contains e.alarm_type then
    if s.shutdownInProgress then s
    else
      { s with shutdownInProgress := true
               shutdownReasons := s.shutdownReasons ++
                 ["Critical alarm triggered: " ++ e.title] }
  else s

/-- `AlarmSystem.trigger_alarm`: persist (or dedup-update) the alarm,
record the event in the observation trace (notification fan-out has
no state effect), and escalate to the shutdown handler when the
severity is critical and `critical_alarm_shutdown` is set. -/
def trigger_alarm (s : AlarmSystemState) (e : AlarmEvent) (now : Int) :
    Nat × AlarmSystemState :=
  let (alarmId, s1) := store_alarm s e now
  let s2 := { s1 with triggered := s1.triggered ++ [e] }
  let s3 :=
    if e.severity = AlarmSeverity.critical ∧ s.config.critical_alarm_shutdown then
      handle_critical_alarm s2 e
    else s2
  (alarmId, s3)

/-- `AlarmSystem._analyze_and_trigger_alarm`: classify the issue; drop
unknown issues; apply the cooldown (which, when passing, refreshes
the last-alarm time); then increment the per-queue consecutive
failure counter and, when the counter has reached the threshold,
escalate the event to critical with a `CRITICAL:` title and an
appended running count, before triggering it. -/
def analyze_and_trigger_alarm (s : AlarmSystemState) (qh : QueueHealthData)
    (issue : String) (now : Int) : AlarmSystemState :=
  match create_alarm_event s.config qh issue with
  | none => s
  | some ev =>
    match should_trigger_alarm s ev now with
    | (false, _) => s
    | (true, s1) =>
      let c := s1.consecutive_failures qh.queue_name + 1
      let s2 := { s1 with
        consecutive_failures := updateFn s1.consecutive_failures qh.queue_name c }
      let ev' :=
        if s.config.consecutive_failures_threshold ≤ c then
          { ev with severity := AlarmSeverity.critical
                    title := "CRITICAL: " ++ ev.title
                    description := ev.description ++
                      "\n\nConsecutive failures: " ++ toString c }
        else ev
      (trigger_alarm s2 ev' now).2

/-- `AlarmSystem.process_queue_health`: on an unhealthy observation,
analyze each issue in order; on a healthy one, drop (`pop`) the
queue's consecutive-failure counter — since the counter is only ever
read with default 0, the pop is modelled as a reset to 0. -/
def process_queue_health (s : AlarmSystemState) (qh : QueueHealthData)
    (now : Int) : AlarmSystemState :=
  if qh.is_healthy then
    { s with consecutive_failures := updateFn s.consecutive_failures qh.queue_name 0 }
  else
    qh.issues.foldl (fun acc issue => analyze_and_trigger_alarm acc qh issue now) s

/-! ### Concrete fixtures used by the scenario theorems and witnesses -/

/-- A pending task row with all optional columns NULL. -/
def baseTask : TaskRow :=
  { id := "t1", queue_id := 1, task_type := "noop", task_name := "n",
    payload := PyVal.dict [], result := none, status := TaskStatus.pending,
    priority := QueuePriority.normal, retry_count := 0, max_retries := 3,
    error_message := none, error_traceback := none, last_error_at := none,
    created_at := 0, started_at := none, completed_at := none,
    scheduled_at := 0, timeout_at := none, correlation_id := none,
    worker_id := none }

/-- A terminal (completed) task, finished at time 5. -/
def completedTask : TaskRow :=
  { baseTask with
      id := "t1"
      status := TaskStatus.completed
      started_at := some 2
      completed_at := some 5 }

/-- The queue auto-created by `QueueManager._ensure_default_queue`. -/
def defaultQueue : QueueRow :=
  { id := 1, name := "default", priority := QueuePriority.normal,
    is_active := true, max_workers := 4, retry_limit := 3,
    timeout_seconds := 300 }

/-- A minimal submission targeting the default queue. -/
def subDefault : TaskSubmission :=
  { task_type := "noop", task_name := "t1", payload := PyVal.dict [] }

/-- The issue string `get_queue_health` produces for a backed-up queue
with 150 pending tasks. -/
def issueBackup : String := "Queue backup: 150 pending tasks"

/-- An unhealthy observation of queue `default` carrying only the
backup issue. -/
def qhBackup : QueueHealthData :=
  { queue_name := "default", is_healthy := false, pending_count := 150,
    processing_count := 2, failed_count := 0, error_rate := 0,
    avg_processing_time := 0, last_processed_at := none,
    issues := [issueBackup] }

/-- The event `_create_alarm_event` builds from `issueBackup` under the
default configuration. -/
def evBackup : AlarmEvent :=
  { alarm_type := AlarmType.queue_backup
    severity := AlarmSeverity.warning
    title := "Queue Backup Detected: default"
    description := "Queue 'default' has excessive pending tasks. Queue backup: 150 pending tasks"
    queue_name := some "default"
    context_data := [("pending_count", CtxVal.int 150),
      ("processing_count", CtxVal.int 2), ("threshold", CtxVal.int 100)] }

/-- An alarm system (default config) whose `default`-queue consecutive
failure counter is already at 4. -/
def sEscalate : AlarmSystemState :=
  { AlarmSystemState.init {} with consecutive_failures := updateFn (fun _ => 0) "default" 4 }

/-- The single `system_alarms` row left by the first backup tick at
time `t`. -/
def backupRow (t : Int) : AlarmRow :=
  { id := 1
    alarm_type := AlarmType.queue_backup
    severity := AlarmSeverity.warning
    title := "Queue Backup Detected: default"
    description := "Queue 'default' has excessive pending tasks. Queue backup: 150 pending tasks"
    component := none
    is_active := true
    acknowledged := false
    triggered_at := t
    last_occurrence := t
    occurrence_count := 1
    context_data := [("pending_count", CtxVal.int 150),
      ("processing_count", CtxVal.int 2), ("threshold", CtxVal.int 100)] }

/-! ### Helper lemmas -/

/-- Boolean prefix check succeeds on an appended extension. -/
theorem charsStarts_append (l m : List Char) : charsStarts l (l ++ m) = true := by
  induction l with
  | nil => rfl
  | cons c cs ih => simp [charsStarts, ih]

/-- Appending after an initial segment keeps `startswith`. -/
theorem strStarts_append (p t : String) : strStarts (p ++ t) p = true := by
  unfold strStarts
  rw [String.data_append]
  exact charsStarts_append p.data t.data

/-- `should_trigger_alarm` only ever touches `last_alarm_times`. -/
theorem should_trigger_alarm_preserves (s : AlarmSystemState) (e : AlarmEvent)
    (now : Int) :
    (should_trigger_alarm s e now).2.config = s.config ∧
    (should_trigger_alarm s e now).2.consecutive_failures = s.consecutive_failures ∧
    (should_trigger_alarm s e now).2.triggered = s.triggered ∧
    (should_trigger_alarm s e now).2.alarms = s.alarms ∧
    (should_trigger_alarm s e now).2.nextAlarmId = s.nextAlarmId := by
  simp only [should_trigger_alarm]
  cases s.last_alarm_times (alarmKey e) <;> dsimp <;> [skip; split_ifs] <;> simp

/-- `store_alarm` only ever touches `alarms` and `nextAlarmId`. -/
theorem store_alarm_preserves (s : AlarmSystemState) (e : AlarmEvent) (now : Int) :
    (store_alarm s e now).2.config = s.config ∧
    (store_alarm s e now).2.consecutive_failures = s.consecutive_failures ∧
    (store_alarm s e now).2.triggered = s.triggered ∧
    (store_alarm s e now).2.last_alarm_times = s.last_alarm_times := by
  simp only [store_alarm]
  cases get_recent_alarm s.alarms e.alarm_type 600 now <;> dsimp <;> [skip; split_ifs] <;> simp

/-- `handle_critical_alarm` only ever touches the shutdown bookkeeping. -/
theorem handle_critical_alarm_preserves (s : AlarmSystemState) (e : AlarmEvent) :
    (handle_critical_alarm s e).config = s.config ∧
    (handle_critical_alarm s e).consecutive_failures = s.consecutive_failures ∧
    (handle_critical_alarm s e).triggered = s.triggered := by
  unfold handle_critical_alarm
  split_ifs <;> simp

/-- `trigger_alarm` appends exactly the event it was given to the
observation trace and leaves the dedup tables alone. -/
theorem trigger_alarm_effects (s : AlarmSystemState) (e : AlarmEvent) (now : Int) :
    (trigger_alarm s e now).2.triggered = s.triggered ++ [e] ∧
    (trigger_alarm s e now).2.consecutive_failures = s.consecutive_failures ∧
    (trigger_alarm s e now).2.config = s.config := by
  unfold trigger_alarm
  rcases hst : store_alarm s e now with ⟨aid, s1⟩
  have hp := store_alarm_preserves s e now
  rw [hst] at hp
  dsimp
  split_ifs with hc
  · have hh := handle_critical_alarm_preserves
      { s1 with triggered := s1.triggered ++ [e] } e
    refine ⟨?_, ?_, ?_⟩
    · rw [hh.2.2]; dsimp; rw [hp.2.2.1]
    · rw [hh.2.1]; dsimp; exact hp.2.1
    · rw [hh.1]; dsimp; exact hp.1
  · exact ⟨by dsimp; rw [hp.2.2.1], by dsimp; exact hp.2.1, by dsimp; exact hp.1⟩

/-- A cooldown-suppressed event leaves the whole alarm system state
untouched: no counter increment, no persistence, no notification. -/
theorem analyze_cooldown_suppressed (s : AlarmSystemState) (qh : QueueHealthData)
    (issue : String) (now : Int) (ev : AlarmEvent)
    (hev : create_alarm_event s.config qh issue = some ev)
    (hst : (should_trigger_alarm s ev now).1 = false) :
    analyze_and_trigger_alarm s qh issue now = s := by
  unfold analyze_and_trigger_alarm
  rw [hev]
  dsimp only
  rcases h : should_trigger_alarm s ev now with ⟨b, s1⟩
  rw [h] at hst
  dsimp at hst
  subst hst
  rfl

/-- Every `update_fields` dict carries the `updated_at` key, whatever
the transition. -/
theorem update_fields_has_updated_at (t : TaskRow) (st : TaskStatus)
    (err : Option String) (res : Option PyVal) (now : Int) :
    ("updated_at", FieldVal.time now) ∈ update_fields t st err res now := by
  cases err <;> cases res <;> simp only [update_fields] <;> (try split_ifs) <;> simp

/-! ### Claim theorems -/

/-- Claim C1: `submit_task` fails with no broker call and no task row
when the queue is absent or inactive, and at a normal return the
broker submission succeeded and the new row is pending with
`worker_id` equal to the broker-assigned id; a failed broker
submission never returns normally and leaves the table unchanged. -/
theorem submit_task_contract (tasks : List TaskRow) (queues : List QueueRow)
    (sub : TaskSubmission) (broker : Option String) (dbOk : Bool)
    (freshId : String) (now : Int) :
    (findQueueByName queues sub.queue_name = none →
      submit_task tasks queues sub broker dbOk freshId now =
        { outcome := Except.error QMError.queueNotFound, tasks := tasks, brokerCalled := false }) ∧
    (∀ q, findQueueByName queues sub.queue_name = some q → q.is_active = false →
      submit_task tasks queues sub broker dbOk freshId now =
        { outcome := Except.error QMError.queueInactive, tasks := tasks, brokerCalled := false }) ∧
    (∀ tid, (submit_task tasks queues sub broker dbOk freshId now).outcome = Except.ok tid →
      ∃ bid, broker = some bid ∧
        ∃ t ∈ (submit_task tasks queues sub broker dbOk freshId now).tasks,
          t.id = tid ∧ t.status = TaskStatus.pending ∧ t.worker_id = some bid) ∧
    (broker = none →
      (∃ e, (submit_task tasks queues sub broker dbOk freshId now).outcome = Except.error e) ∧
      (submit_task tasks queues sub broker dbOk freshId now).tasks = tasks) := by
  refine ⟨?_, ?_, ?_, ?_⟩
  · intro h
    simp [submit_task, h]
  · intro q hq hact
    simp [submit_task, hq, hact]
  · intro tid hok
    rcases hq : findQueueByName queues sub.queue_name with _ | q
    · simp [submit_task, hq] at hok
    · by_cases hact : q.is_active = false
      · simp [submit_task, hq, hact] at hok
      · rcases hb : broker with _ | bid
        · simp [submit_task, hq, hact, hb] at hok
        · by_cases hdb : dbOk = false
          · simp [submit_task, hq, hact, hb, hdb] at hok
          · refine ⟨bid, rfl, ?_⟩
            simp only [submit_task, hq, hact, hb, hdb] at hok ⊢
            simp at hok
            refine ⟨_, List.mem_append_right _ (List.mem_singleton.mpr rfl), ?_⟩
            simp [hok]
  · intro hb
    rcases hq : findQueueByName queues sub.queue_name with _ | q
    · exact ⟨⟨QMError.queueNotFound, by simp [submit_task, hq]⟩, by simp [submit_task, hq]⟩
    · by_cases hact : q.is_active = false
      · exact ⟨⟨QMError.queueInactive, by simp [submit_task, hq, hact]⟩,
          by simp [submit_task, hq, hact]⟩
      · exact ⟨⟨QMError.brokerError, by simp [submit_task, hq, hact, hb]⟩,
          by simp [submit_task, hq, hact, hb]⟩

/-- Claim C1 witness: a concrete successful submission against the
active default queue yields a pending row carrying the broker id. -/
theorem submit_task_contract_witness :
    ∃ bid, (some "cid-1") = some bid ∧
      ∃ t ∈ (submit_task [] [defaultQueue] subDefault (some "cid-1") true "uuid-1" 0).tasks,
        t.id = "uuid-1" ∧ t.status = TaskStatus.pending ∧ t.worker_id = some bid :=
  (submit_task_contract [] [defaultQueue] subDefault (some "cid-1") true "uuid-1" 0).2.2.1
    "uuid-1" rfl

/-- Claim C2 counterexample: two non-healthy observations of the same
queue inside one cooldown window increment the consecutive-failure
counter only once — the counter is NOT incremented on each
non-healthy observation, contradicting the claim which demands the
counter be 2 after the second observation. -/
theorem consecutive_counter_suppressed_cex :
    (process_queue_health (AlarmSystemState.init {}) qhBackup 0).consecutive_failures "default" = 1 ∧
    (process_queue_health (process_queue_health (AlarmSystemState.init {}) qhBackup 0)
        qhBackup 30).consecutive_failures "default" = 1 ∧
    (1 : Nat) ≠ 2 :=
  ⟨by decide, by decide, by decide⟩

/-- Claim C2 (amended): the consecutive-failure counter is reset by a
healthy observation, and incremented only by a non-healthy
observation whose issue maps to a known alarm type AND that passes
the cooldown; when such an increment reaches
`consecutive_failures_threshold`, the triggered event has severity
critical and its title is prefixed `CRITICAL:`, while below the
threshold the event is triggered unescalated. -/
theorem consecutive_failure_escalation :
    (∀ (s : AlarmSystemState) (qh : QueueHealthData) (now : Int),
      qh.is_healthy = true →
      (process_queue_health s qh now).consecutive_failures qh.queue_name = 0) ∧
    (∀ (s : AlarmSystemState) (qh : QueueHealthData) (issue : String)
        (now : Int) (ev : AlarmEvent),
      create_alarm_event s.config qh issue = some ev →
      (should_trigger_alarm s ev now).1 = true →
      (analyze_and_trigger_alarm s qh issue now).consecutive_failures qh.queue_name =
        s.consecutive_failures qh.queue_name + 1 ∧
      (s.config.consecutive_failures_threshold ≤ s.consecutive_failures qh.queue_name + 1 →
        ∃ e, (analyze_and_trigger_alarm s qh issue now).triggered = s.triggered ++ [e] ∧
          e.severity = AlarmSeverity.critical ∧ strStarts e.title "CRITICAL: " = true) ∧
      (s.consecutive_failures qh.queue_name + 1 < s.config.consecutive_failures_threshold →
        (analyze_and_trigger_alarm s qh issue now).triggered = s.triggered ++ [ev])) := by
  constructor
  · intro s qh now h
    simp [process_queue_health, h, updateFn]
  · intro s qh issue now ev hev hcool
    unfold analyze_and_trigger_alarm
    rw [hev]
    dsimp only
    rcases hst : should_trigger_alarm s ev now with ⟨b, s1⟩
    rw [hst] at hcool
    dsimp at hcool
    subst hcool
    dsimp only
    have hp := should_trigger_alarm_preserves s ev now
    rw [hst] at hp
    dsimp at hp
    obtain ⟨hpc, hpf, hpt, -, -⟩ := hp
    rw [hpf]
    set c := s.consecutive_failures qh.queue_name + 1 with hc
    split_ifs with hthr
    · refine ⟨?_, ?_, ?_⟩
      · rw [(trigger_alarm_effects _ _ _).2.1]
        simp [updateFn]
      · intro _
        refine ⟨{ ev with
            severity := AlarmSeverity.critical
            title := "CRITICAL: " ++ ev.title
            description := ev.description ++ "\n\nConsecutive failures: " ++ toString c },
          ?_, rfl, strStarts_append "CRITICAL: " ev.title⟩
        rw [(trigger_alarm_effects _ _ _).1]
        dsimp only
        rw [hpt]
      · intro hlt
        omega
    · refine ⟨?_, ?_, ?_⟩
      · rw [(trigger_alarm_effects _ _ _).2.1]
        simp [updateFn]
      · intro hge
        omega
      · intro _
        rw [(trigger_alarm_effects _ _ _).1]
        dsimp only
        rw [hpt]

/-- Claim C2 witness: with the counter at 4 under the default threshold
of 5, a fifth counted failure escalates — the triggered event is
critical with a `CRITICAL:`-prefixed title. -/
theorem consecutive_failure_escalation_witness :
    (analyze_and_trigger_alarm sEscalate qhBackup issueBackup 0).consecutive_failures "default" = 5 ∧
    ∃ e, (analyze_and_trigger_alarm sEscalate qhBackup issueBackup 0).triggered =
        sEscalate.triggered ++ [e] ∧
      e.severity = AlarmSeverity.critical ∧ strStarts e.title "CRITICAL: " = true := by
  have h := consecutive_failure_escalation.2 sEscalate qhBackup issueBackup 0 evBackup
    (by decide) (by decide)
  exact ⟨h.1.trans (by decide), h.2.1 (by decide)⟩

/-- Claim C3 counterexample: three backed-up health ticks at times 0,
30, 60 — all inside one 300 s cooldown window — leave exactly one
`queue_backup` alarm row with `occurrence_count = 1`, not 3 as the
claim states: ticks 2 and 3 are cooldown-suppressed before they can
reach the dedup-update path. -/
theorem backup_dedup_occurrence_cex :
    ((process_queue_health (process_queue_health (process_queue_health
        (AlarmSystemState.init {}) qhBackup 0) qhBackup 30) qhBackup 60).alarms.map
      (fun a => (a.alarm_type, a.occurrence_count))) = [(AlarmType.queue_backup, 1)] ∧
    (1 : Nat) ≠ 3 :=
  ⟨by decide, by decide⟩

/-- Claim C3 (amended): three backed-up health ticks within one
cooldown window leave exactly one `queue_backup` alarm row, with
`occurrence_count = 1` — the second and third ticks are suppressed by
the cooldown before persistence. -/
theorem backup_three_ticks_single_alarm (t1 t2 t3 : Int)
    (hw2 : t2 - t1 < 300) (hw3 : t3 - t1 < 300) :
    (process_queue_health (process_queue_health (process_queue_health
        (AlarmSystemState.init {}) qhBackup t1) qhBackup t2) qhBackup t3).alarms =
      [backupRow t1] ∧
    (backupRow t1).alarm_type = AlarmType.queue_backup ∧
    (backupRow t1).occurrence_count = 1 := by
  have hproc : ∀ (s : AlarmSystemState) (tm : Int),
      process_queue_health s qhBackup tm =
        analyze_and_trigger_alarm s qhBackup issueBackup tm := fun s tm => rfl
  set X := process_queue_health (AlarmSystemState.init {}) qhBackup t1 with hX
  have hXconf : X.config = ({} : AlarmConfig) := rfl
  have hXlat : X.last_alarm_times (alarmKey evBackup) = some t1 := rfl
  have hXcool : X.config.alarm_cooldown_seconds = 300 := rfl
  have hXalarms : X.alarms = [backupRow t1] := rfl
  have hsup : ∀ tm : Int, tm - t1 < 300 → process_queue_health X qhBackup tm = X := by
    intro tm hw
    rw [hproc]
    apply analyze_cooldown_suppressed _ _ _ _ evBackup
    · rw [hXconf]
      decide
    · simp only [should_trigger_alarm, hXlat, hXcool, hw, if_true]
  rw [hsup t2 hw2, hsup t3 hw3]
  exact ⟨hXalarms, rfl, rfl⟩

/-- Claim C3 witness: the amended statement at concrete tick times 0,
30, 60. -/
theorem backup_three_ticks_single_alarm_witness :
    (process_queue_health (process_queue_health (process_queue_health
        (AlarmSystemState.init {}) qhBackup 0) qhBackup 30) qhBackup 60).alarms =
      [backupRow 0] :=
  (backup_three_ticks_single_alarm 0 30 60 (by decide) (by decide)).1

/-- Claim C4 counterexample: cancelling a task that is already
completed is not a no-op — its status is overwritten to `cancelled`
and its `completed_at` is re-stamped to the cancellation time. -/
theorem cancel_completed_task_not_noop :
    cancel_task [completedTask] "t1" 10 =
      Except.ok ([{ completedTask with status := TaskStatus.cancelled, completed_at := some 10 }],
        false, true) ∧
    TaskStatus.cancelled ≠ completedTask.status ∧
    (some (10 : Int)) ≠ completedTask.completed_at :=
  ⟨rfl, by decide, by decide⟩

/-- Claim C4 (amended): `cancel_task` on any present task — terminal or
not — succeeds, revokes when a broker id is present, and overwrites
the task's status to `cancelled` and `completed_at` to now, leaving
every other field unchanged; it does not exempt terminal tasks. -/
theorem cancel_present_task_always_cancels (tasks : List TaskRow) (tid : String)
    (now : Int) (t : TaskRow) (hfind : findTaskById tasks tid = some t) :
    ∃ tasks' : List TaskRow,
      cancel_task tasks tid now = Except.ok (tasks', t.worker_id.isSome, true) ∧
      ∀ u ∈ tasks, u.id = tid →
        ({ u with status := TaskStatus.cancelled, completed_at := some now } : TaskRow) ∈ tasks' := by
  refine ⟨tasks.map (fun u =>
      if u.id = tid then { u with status := TaskStatus.cancelled, completed_at := some now } else u),
    ?_, ?_⟩
  · unfold cancel_task
    rw [hfind]
  · intro u hu huid
    exact List.mem_map.mpr ⟨u, hu, by simp [huid]⟩

/-- Claim C4 witness: the amended statement applied to a concrete
completed task. -/
theorem cancel_present_task_always_cancels_witness :
    ∃ tasks' : List TaskRow,
      cancel_task [completedTask] "t1" 10 = Except.ok (tasks', false, true) ∧
      ∀ u ∈ [completedTask], u.id = "t1" →
        ({ u with status := TaskStatus.cancelled, completed_at := some (10:Int) } : TaskRow) ∈ tasks' :=
  cancel_present_task_always_cancels [completedTask] "t1" 10 completedTask rfl

/-- Claim C5: `DELETE /tasks/{id}` on an unknown id responds 500, not
404 — `TaskNotFoundError` raised by `QueueManager.cancel_task` is
swallowed by the route's generic `except Exception` arm, and the
route's own 404 branch is unreachable; a present id yields
`{task_id, status: cancelled}`. -/
theorem cancel_route_unknown_task_returns_500 :
    cancel_task_route [] "missing" 0 =
      { statusCode := 500, body := [("detail", "Failed to cancel task")] } ∧
    (cancel_task_route [] "missing" 0).statusCode ≠ 404 ∧
    cancel_task_route [completedTask] "t1" 10 =
      { statusCode := 200, body := [("task_id", "t1"), ("status", "cancelled")] } := by
  decide

/-- Claim C6: the claim is right about the intent (the spec's
`started_at` is stamped once, at the pending→processing prerun) but
the code never performs any write at all: every `update_fields` dict
carries the key `updated_at`, which is not a column of `Task`, so
`update().values(...)` raises before writing and the wrapper's
`except Exception` swallows it — the row, `started_at` included, is
returned unchanged on every call. -/
theorem update_task_status_never_writes (t : TaskRow) (st : TaskStatus)
    (err : Option String) (res : Option PyVal) (now : Int) :
    update_task_status t st err res now = t ∧
    ("updated_at", FieldVal.time now) ∈ update_fields t st err res now ∧
    taskColumns.contains "updated_at" = false := by
  have hmem := update_fields_has_updated_at t st err res now
  have hall : (update_fields t st err res now).all
      (fun kv => taskColumns.contains kv.1) = false := by
    rw [Bool.eq_false_iff]
    intro hal
    have hbad := List.all_eq_true.mp hal _ hmem
    simp [taskColumns] at hbad
  refine ⟨?_, hmem, by decide⟩
  unfold update_task_status execute_update
  rw [hall]
  simp

/-- Claim C7 counterexample: a complete emergency shutdown run (not in
progress, two callbacks) produces the trace status-update, callback
0, callback 1, completion-log — it contains no alarm emission at
all, so its final step is not a SYSTEM_SHUTDOWN informational
alarm. -/
theorem emergency_shutdown_emits_no_alarm_cex :
    (trigger_emergency_shutdown false 2 "db down").1 =
      [ShutdownStep.updateSystemStatus "db down", ShutdownStep.runCallback 0,
       ShutdownStep.runCallback 1, ShutdownStep.logCompleted] ∧
    ((trigger_emergency_shutdown false 2 "db down").1.all
      (fun s => !s.isEmitAlarm)) = true := by
  decide

/-- Claim C7 (amended): an emergency shutdown that runs to completion
updates the system status, runs every registered callback in order
and logs completion; it emits no alarm of any kind — in particular
no final SYSTEM_SHUTDOWN informational alarm. -/
theorem emergency_shutdown_trace (n : Nat) (reason : String) :
    (trigger_emergency_shutdown false n reason).1 =
      ShutdownStep.updateSystemStatus reason ::
        ((List.range n).map ShutdownStep.runCallback ++ [ShutdownStep.logCompleted]) ∧
    ∀ s ∈ (trigger_emergency_shutdown false n reason).1, s.isEmitAlarm = false := by
  constructor
  · simp [trigger_emergency_shutdown]
  · intro s hs
    simp only [trigger_emergency_shutdown, Bool.false_eq_true, if_false] at hs
    rcases List.mem_cons.mp hs with h | hs
    · subst h; rfl
    rcases List.mem_append.mp hs with h | h
    · obtain ⟨i, -, h⟩ := List.mem_map.mp h
      subst h; rfl
    · have h := List.mem_singleton.mp h
      subst h; rfl

/-- Claim C7 witness: the amended statement at one callback and a
concrete reason, plus an emitted-alarm check on a trace member. -/
theorem emergency_shutdown_trace_witness :
    (trigger_emergency_shutdown false 1 "db down").1 =
      ShutdownStep.updateSystemStatus "db down" ::
        ((List.range 1).map ShutdownStep.runCallback ++ [ShutdownStep.logCompleted]) ∧
    (ShutdownStep.updateSystemStatus "db down").isEmitAlarm = false :=
  ⟨(emergency_shutdown_trace 1 "db down").1,
   (emergency_shutdown_trace 1 "db down").2 _ (by decide)⟩

/-- Claim C8 counterexample: a PENDING task whose `timeout_at` lies in
the past is reported overdue — `is_overdue` does not require
`status = processing`, contradicting the claim that `is_overdue` is
false for any non-processing task. -/
theorem is_overdue_ignores_status_cex :
    ({ baseTask with status := TaskStatus.pending, timeout_at := some 0 } : TaskRow).is_overdue 1 = true ∧
    ({ baseTask with status := TaskStatus.pending, timeout_at := some 0 } : TaskRow).status ≠ TaskStatus.processing := by
  decide

/-- Claim C8 (amended): `Task.is_overdue` is true exactly when
`timeout_at` is set and strictly in the past, regardless of the
task's status. -/
theorem is_overdue_iff_timeout_passed (t : TaskRow) (now : Int) :
    t.is_overdue now = true ↔ ∃ ta, t.timeout_at = some ta ∧ ta < now := by
  cases h : t.timeout_at <;> simp [TaskRow.is_overdue, h]

/-- Claim C9: the overall status of a component health list is critical
iff some component is critical; otherwise degraded iff some
component is degraded; otherwise healthy iff all components are
healthy; otherwise unknown. -/
theorem overall_status_characterization (cs : List ComponentHealth) :
    (calculate_overall_status cs = HealthStatus.critical ↔
      ∃ c ∈ cs, c.status = HealthStatus.critical) ∧
    (calculate_overall_status cs = HealthStatus.degraded ↔
      (¬ ∃ c ∈ cs, c.status = HealthStatus.critical) ∧
      ∃ c ∈ cs, c.status = HealthStatus.degraded) ∧
    (calculate_overall_status cs = HealthStatus.healthy ↔
      (¬ ∃ c ∈ cs, c.status = HealthStatus.critical) ∧
      (¬ ∃ c ∈ cs, c.status = HealthStatus.degraded) ∧
      ∀ c ∈ cs, c.status = HealthStatus.healthy) ∧
    (calculate_overall_status cs = HealthStatus.unknown ↔
      (¬ ∃ c ∈ cs, c.status = HealthStatus.critical) ∧
      (¬ ∃ c ∈ cs, c.status = HealthStatus.degraded) ∧
      ¬ ∀ c ∈ cs, c.status = HealthStatus.healthy) := by
  unfold calculate_overall_status
  split_ifs with h1 h2 h3 <;>
    simp_all [List.any_eq_true, List.all_eq_true]

/-- Claim C10: in the host-resource probe each exceeded threshold check
overwrites the status, CPU then memory then disk; so when CPU is at
or beyond its 95 critical bound but memory exceeds its threshold
while staying below 95 and disk stays under its threshold, the
component is reported degraded rather than critical. -/
theorem resource_status_degraded_overrides_critical
    (th : MonitoringThresholds) (cpu mem disk : ℚ)
    (hcpu95 : 95 ≤ cpu) (hcpu : th.cpu_threshold < cpu)
    (hmem : th.memory_threshold < mem) (hmem95 : mem < 95)
    (hdisk : ¬ th.disk_threshold < disk) :
    (check_system_resources th cpu mem disk).1 = HealthStatus.degraded := by
  unfold check_system_resources
  split_ifs <;> first | rfl | linarith

/-- Claim C10 witness: under the default thresholds (80/85/90), CPU at
96, memory at 90 and disk at 50 are reported degraded. -/
theorem resource_status_degraded_overrides_critical_witness :
    (check_system_resources monitoringDefaults 96 90 50).1 = HealthStatus.degraded :=
  resource_status_degraded_overrides_critical monitoringDefaults 96 90 50
    (by norm_num) (by norm_num [monitoringDefaults]) (by norm_num [monitoringDefaults])
    (by norm_num) (by norm_num [monitoringDefaults])

end CISHub
